import Mathlib

/-!
Shallow embedding of the NEXUS scheduler extender (spike detector,
dependency graph builder, gang manager, node scorer, advisory HTTP
handlers, and the two controller loops) together with theorems that
settle the specification claims against it.

The embedding follows the Go source files `scheduler/spike.go`,
`scheduler/dependency.go`, `scheduler/gang.go` and the metrics registry.
Network and orchestrator I/O is made explicit: the telemetry backend is
a `TelemetryView` value, the pod inventory is a `Cluster` value, and
fallible list calls are `Except Unit` results.  Wall-clock readings are
natural numbers (seconds).  Go maps are association lists with
last-write-wins `upsert` semantics; Go map-key lookup is `lookupStr`.
-/

namespace Nexus

/-- Association-list lookup, mirroring Go map read `m[k]`. -/
def lookupStr {α : Type} : List (String × α) → String → Option α
  | [], _ => none
  | (k', v) :: rest, k => if k' = k then some v else lookupStr rest k

/-- Association-list write, mirroring Go map assignment `m[k] = v`:
replaces an existing binding in place, otherwise appends. -/
def upsert {α : Type} : List (String × α) → String → α → List (String × α)
  | [], k, v => [(k, v)]
  | (k', v') :: rest, k, v =>
    if k' = k then (k, v) :: rest else (k', v') :: upsert rest k v

-- --- Data model (mirrors the Kubernetes API objects the advisor reads) ---

/-- A workload (pod): the advisor reads only its name and annotations. -/
structure Pod where
  name : String
  annotations : List (String × String)
deriving DecidableEq, Repr

/-- A node status condition (`type`, `status` pair). -/
structure NodeCondition where
  condType : String
  status : String
deriving DecidableEq, Repr

/-- A host (node): the advisor reads taints, conditions and allocatable
capacity.  Allocatable quantities are non-negative machine integers in
the source (`int64` millicores / bytes); they are embedded as `Nat`. -/
structure Node where
  name : String
  taintKeys : List String
  conditions : List NodeCondition
  allocCpuMillis : Nat
  allocMemBytes : Nat
deriving DecidableEq, Repr

-- --- dependency.go: service-identifier derivation ---

/-- Go `strings.Split(s, sep)` for a one-character separator, modelled
structurally over the character list.  Always returns a non-empty list;
`splitChar sep "" = [""]`, matching Go. -/
def splitChar (sep : Char) : List Char → List String
  | [] => [""]
  | c :: rest =>
    match splitChar sep rest with
    | [] => [String.mk [c]]
    | h :: t =>
      if c = sep then "" :: h :: t else String.mk (c :: h.data) :: t

/-- Go `strings.Split(s, "-")` on a string. -/
def splitHyphens (s : String) : List String := splitChar '-' s.data

/-- Go `strings.Join(parts, "-")`. -/
def joinHyphens : List String → String
  | [] => ""
  | [s] => s
  | s :: rest => s ++ "-" ++ joinHyphens rest

/-- The hard-coded known-service dictionary of `isKnownService`. -/
def knownServices : List String :=
  ["cartservice", "paymentservice", "checkoutservice", "currencyservice",
   "frontend", "productcatalogservice", "recommendationservice",
   "emailservice", "shippingservice", "adservice", "redis-cart",
   "loadgenerator"]

/-- `isKnownService` from `dependency.go`: membership in the dictionary. -/
def isKnownService (name : String) : Bool :=
  knownServices.contains name

/-- The descending candidate scan of `extractServiceName`: tries the
join of the first `i` hyphen components for `i = hi, hi-1, ..., 2`
against the dictionary (the Go loop `for i := len(parts)-1; i >= 2; i--`). -/
def scanKnown (parts : List String) : Nat → Option String
  | 0 => none
  | 1 => none
  | Nat.succ (Nat.succ i) =>
    let cand := joinHyphens (parts.take (i + 2))
    if isKnownService cand then some cand else scanKnown parts (i + 1)

/-- `extractServiceName` from `dependency.go`: split the pod name on
hyphens; with at least three components scan proper prefixes of
2..n-1 components (longest first) against the dictionary, defaulting to
the first component; otherwise return the first component. -/
def extractServiceName (podName : String) : String :=
  let parts := splitHyphens podName
  if parts.length ≥ 3 then
    match scanKnown parts (parts.length - 1) with
    | some c => c
    | none => parts.headD podName
  else if parts.length > 0 then parts.headD podName
  else podName

/-- Modelled from the spec: the §4.3 derivation rule scans every
left-prefix of hyphen components, longest first (including the whole
name), against the dictionary. -/
def specScanKnown (parts : List String) : Nat → Option String
  | 0 => none
  | Nat.succ i =>
    let cand := joinHyphens (parts.take (i + 1))
    if isKnownService cand then some cand else specScanKnown parts i

/-- Modelled from the spec: the §4.3 service-identifier derivation —
"the longest left-prefix that matches a configured known-service
dictionary; otherwise returns the first hyphen-delimited component". -/
def specExtractServiceName (podName : String) : String :=
  let parts := splitHyphens podName
  match specScanKnown parts parts.length with
  | some c => c
  | none => parts.headD podName

example : extractServiceName "cartservice-7f9b8-xk2p" = "cartservice" := by decide
example : extractServiceName "redis-cart-abc" = "redis-cart" := by decide
example : extractServiceName "redis-cart" = "redis" := by decide
example : specExtractServiceName "redis-cart" = "redis-cart" := by decide
example : extractServiceName "frontend-abc" = "frontend" := by decide

-- --- spike.go: spike detector ---

/-- The spike detector's thresholds (`SpikeDetector` struct).  Go
float64 thresholds are embedded as rationals; `fallbackThreshold` is an
integer count. -/
structure SpikeDetector where
  qpsThreshold : Rat
  errorThreshold : Rat
  p95LatencyThreshold : Rat
  fallbackThreshold : Nat
deriving DecidableEq, Repr

/-- Startup environment overrides for the threshold variables
(`SPIKE_QPS_THRESHOLD`, `SPIKE_ERROR_THRESHOLD`,
`SPIKE_P95_LATENCY_THRESHOLD`); `none` means unset or unparsable. -/
structure EnvConfig where
  qps : Option Rat
  errRate : Option Rat
  p95 : Option Rat
deriving DecidableEq, Repr

/-- `NewSpikeDetector`: defaults 1000 / 50 / 500, overridable from the
environment; the fallback threshold is the hard-coded constant 5. -/
def NewSpikeDetector (env : EnvConfig) : SpikeDetector :=
  { qpsThreshold := env.qps.getD 1000
    errorThreshold := env.errRate.getD 50
    p95LatencyThreshold := env.p95.getD 500
    fallbackThreshold := 5 }

/-- One observation of the telemetry backend: the liveness probe result
and the four query outcomes (`.error` models a failed query, logged and
treated as predicate-not-satisfied). -/
structure TelemetryView where
  reachable : Bool
  qps : Except Unit Rat
  errorRate : Except Unit Rat
  p95 : Except Unit Rat
  hpaIncrease : Except Unit Rat
deriving Repr

/-- `Detect` from `spike.go`: if the backend is unreachable, fall back
to the pending-pod count against `fallbackThreshold`; otherwise return
true as soon as one of the four predicates holds, with failed queries
skipped. -/
def Detect (sd : SpikeDetector) (tv : TelemetryView) (pendingPodCount : Nat) : Bool :=
  if !tv.reachable then decide (pendingPodCount ≥ sd.fallbackThreshold)
  else if (match tv.qps with | .ok v => decide (v > sd.qpsThreshold) | .error _ => false) then
    true
  else if (match tv.errorRate with | .ok v => decide (v > sd.errorThreshold) | .error _ => false) then
    true
  else if (match tv.p95 with | .ok v => decide (v > sd.p95LatencyThreshold) | .error _ => false) then
    true
  else if (match tv.hpaIncrease with | .ok v => decide (v > 0) | .error _ => false) then
    true
  else false

-- --- gang.go: gang lifecycle manager ---

/-- The gang lifecycle stage enumeration. -/
inductive GangStage where
  | none
  | detected
  | graphBuilt
  | formed
  | scheduling
  | cooldown
  | dissolved
deriving DecidableEq, Repr

/-- A temporary co-location gang (`Gang` struct).  `createdAt` carries
the formation tag standing in for the wall-clock timestamp. -/
structure Gang where
  id : String
  members : List String
  nodePrefs : List (String × Nat)
  createdAt : Nat
  stage : GangStage
deriving DecidableEq, Repr

/-- The gang manager's guarded state: the active-gang map, the
service-to-gang index, and the lifecycle stage. -/
structure GangManagerSt where
  activeGangs : List (String × Gang)
  serviceToGang : List (String × String)
  stage : GangStage
deriving DecidableEq, Repr

/-- A freshly constructed gang manager (`NewGangManager`). -/
def emptyGangManager : GangManagerSt :=
  { activeGangs := [], serviceToGang := [], stage := .none }

/-- `SetStage`. -/
def SetStage (gm : GangManagerSt) (stage : GangStage) : GangManagerSt :=
  { gm with stage := stage }

/-- A coordination group discovered by the graph builder
(`RuntimeGroup` struct). -/
structure RuntimeGroup where
  name : String
  services : List String
deriving DecidableEq, Repr

-- --- metrics registry (NEXUSMetrics counters) ---

/-- The counter portion of the metrics registry; the field name
`gangsDisssolved` reproduces the source's spelling. -/
structure MetricsSt where
  spikeEvents : Nat
  gangsFormed : Nat
  gangsDisssolved : Nat
  filterCalls : Nat
  prioritizeCalls : Nat
  stateChanges : Nat
  currentState : String
deriving DecidableEq, Repr

/-- `NewNEXUSMetrics`: all counters at zero, state label IDLE. -/
def NewNEXUSMetrics : MetricsSt :=
  { spikeEvents := 0, gangsFormed := 0, gangsDisssolved := 0
    filterCalls := 0, prioritizeCalls := 0, stateChanges := 0
    currentState := "IDLE" }

/-- `IncrementCounter`: bump the counter selected by name; unknown
names are ignored. -/
def IncrementCounter (m : MetricsSt) (name : String) : MetricsSt :=
  match name with
  | "spike_events" => { m with spikeEvents := m.spikeEvents + 1 }
  | "gangs_formed" => { m with gangsFormed := m.gangsFormed + 1 }
  | "gangs_dissolved" => { m with gangsDisssolved := m.gangsDisssolved + 1 }
  | "filter_calls" => { m with filterCalls := m.filterCalls + 1 }
  | "prioritize_calls" => { m with prioritizeCalls := m.prioritizeCalls + 1 }
  | "state_changes" => { m with stateChanges := m.stateChanges + 1 }
  | _ => m

/-- `SetState` on the metrics registry (state label only). -/
def MetricsSetState (m : MetricsSt) (state : String) : MetricsSt :=
  { m with currentState := state }

/-- The gang id format of `FormGangs`:
`fmt.Sprintf("gang-%s-%d", group.Name, tag)`.  The per-gang
`time.Now().UnixNano()` reading is modelled by the single monotonic
`tag` passed to the formation. -/
def gangIdFor (name : String) (tag : Nat) : String :=
  "gang-" ++ name ++ "-" ++ toString tag

/-- The gang object the formation loop builds for one group. -/
def mkGang (tag : Nat) (group : RuntimeGroup) : Gang :=
  { id := gangIdFor group.name tag, members := group.services, nodePrefs := []
    createdAt := tag, stage := .formed }

/-- One iteration of the `FormGangs` loop: install the group's gang in
the gang map and point every member service at its id. -/
def formStep (tag : Nat) (acc : GangManagerSt) (group : RuntimeGroup) : GangManagerSt :=
  let gid := gangIdFor group.name tag
  { acc with
      activeGangs := upsert acc.activeGangs gid (mkGang tag group)
      serviceToGang := group.services.foldl
        (fun idx svc => upsert idx svc gid) acc.serviceToGang }

/-- `FormGangs`: clear existing gangs, then for each group install a
new gang under its fresh id and point every member service at it;
finally set stage FORMED and bump the formation counter. -/
def FormGangs (gm : GangManagerSt) (m : MetricsSt) (tag : Nat)
    (groups : List RuntimeGroup) : GangManagerSt × MetricsSt :=
  let gm0 := { gm with activeGangs := [], serviceToGang := [] }
  let gm1 := groups.foldl (formStep tag) gm0
  ({ gm1 with stage := .formed }, IncrementCounter m "gangs_formed")

/-- `GetGangForService`: index lookup followed by gang-map lookup. -/
def GetGangForService (gm : GangManagerSt) (serviceName : String) : Option Gang :=
  match lookupStr gm.serviceToGang serviceName with
  | Option.none => Option.none
  | some gid => lookupStr gm.activeGangs gid

/-- `GetGangForPod`: derive the service identifier, then delegate. -/
def GetGangForPod (gm : GangManagerSt) (pod : Pod) : Option Gang :=
  GetGangForService gm (extractServiceName pod.name)

/-- `DissolveAll`: a no-op when no gang is active; otherwise clear both
maps, set stage DISSOLVED, and bump the dissolution counter once. -/
def DissolveAll (gm : GangManagerSt) (m : MetricsSt) : GangManagerSt × MetricsSt :=
  if gm.activeGangs.length = 0 then (gm, m)
  else
    ({ gm with activeGangs := [], serviceToGang := [], stage := .dissolved },
     IncrementCounter m "gangs_dissolved")

-- --- dependency.go: graph builder ---

/-- The in-memory dependency graph (`DependencyGraph` struct). -/
structure DependencyGraphSt where
  groups : List RuntimeGroup
  built : Bool
deriving DecidableEq, Repr

/-- `NewDependencyGraph`: empty, unbuilt. -/
def NewDependencyGraph : DependencyGraphSt := { groups := [], built := false }

/-- `Clear`: free all in-memory graph data. -/
def ClearGraph (_dg : DependencyGraphSt) : DependencyGraphSt :=
  { groups := [], built := false }

/-- Go map read `pod.Annotations[key]`: empty string when absent. -/
def annoGet (pod : Pod) (key : String) : String :=
  (lookupStr pod.annotations key).getD ""

/-- ASCII whitespace test backing the `strings.TrimSpace` model. -/
def isSpaceChar (c : Char) : Bool :=
  c = ' ' ∨ c = '\t' ∨ c = '\n' ∨ c = '\r'

/-- Go `strings.TrimSpace`, modelled at ASCII level. -/
def trimSpace (s : String) : String :=
  String.mk (((s.data.dropWhile isSpaceChar).reverse.dropWhile isSpaceChar).reverse)

/-- Set-flavoured insertion into a group's member list (the Go code
uses a `map[string]bool`; duplicate insertions are idempotent). -/
def insertService (svcs : List String) (svc : String) : List String :=
  if svcs.contains svc then svcs else svcs ++ [svc]

/-- Processing of one pod by `BuildFromAnnotations`: pods without a
`nexus.io/service-group` annotation are skipped; otherwise the pod's
derived service identifier and every trimmed, non-empty element of its
comma-separated `nexus.io/depends-on` annotation join the group. -/
def buildStep (groupMap : List (String × List String)) (pod : Pod) :
    List (String × List String) :=
  let groupName := annoGet pod "nexus.io/service-group"
  if groupName = "" then groupMap
  else
    let svcs := (lookupStr groupMap groupName).getD []
    let svcs := insertService svcs (extractServiceName pod.name)
    let deps := (splitChar ',' (annoGet pod "nexus.io/depends-on").data).map trimSpace
    let svcs := deps.foldl
      (fun acc dep => if dep = "" then acc else insertService acc dep) svcs
    upsert groupMap groupName svcs

/-- `loadExperimentDefaults`: the built-in well-known groups used when
no annotated workload exists. -/
def experimentDefaults : List RuntimeGroup :=
  [{ name := "checkout-flow"
     services := ["cartservice", "paymentservice", "checkoutservice", "currencyservice"] },
   { name := "product-browsing"
     services := ["frontend", "productcatalogservice", "recommendationservice"] }]

/-- `BuildFromAnnotations`: an inventory-list failure propagates before
any mutation; otherwise the groups are rebuilt from scratch from the
annotation scan, falling back to the experiment defaults when the scan
finds nothing.  Go map iteration order is modelled as insertion order. -/
def BuildFromAnnotations (_dg : DependencyGraphSt)
    (podList : Except Unit (List Pod)) : Except Unit DependencyGraphSt :=
  match podList with
  | .error e => .error e
  | .ok pods =>
    let groupMap := pods.foldl buildStep []
    let groups := groupMap.map (fun p => { name := p.1, services := p.2 : RuntimeGroup })
    let groups := if groups.isEmpty then experimentDefaults else groups
    .ok { groups := groups, built := true }

-- --- dependency.go: node scorer ---

/-- ASCII case folding backing the `strings.EqualFold` model. -/
def asciiLower (c : Char) : Char :=
  if 'A' ≤ c ∧ c ≤ 'Z' then Char.ofNat (c.toNat + 32) else c

/-- Go `strings.EqualFold`, modelled at ASCII level (service names are
ASCII in this system). -/
def eqFold (a b : String) : Bool :=
  a.data.map asciiLower = b.data.map asciiLower

/-- The orchestrator inventory consumed by the scorer: the pod list a
field-selector query for one node returns, or a list error. -/
structure Cluster where
  podsOnNode : String → Except Unit (List Pod)

/-- `countGangMembersOnNode`: zero for an empty member set or on a
failed pod list; otherwise the number of pods on the node whose derived
service identifier fold-matches some gang member. -/
def countGangMembersOnNode (cl : Cluster) (node : Node) (gang : Gang) : Nat :=
  if gang.members.isEmpty then 0
  else
    match cl.podsOnNode node.name with
    | .error _ => 0
    | .ok pods =>
      pods.countP (fun pod =>
        gang.members.any (fun m => eqFold (extractServiceName pod.name) m))

/-- `calculateLocalityScore`: gang members on the node times 100. -/
def calculateLocalityScore (cl : Cluster) (node : Node) (gang : Gang) : Nat :=
  countGangMembersOnNode cl node gang * 100

/-- `calculateResourceScore`: 10 points per 100 allocatable millicores
capped at 100, plus 1 point per 100Mi allocatable memory capped at 50
(integer division, as in the source). -/
def calculateResourceScore (node : Node) (_pod : Pod) : Nat :=
  let cpuScore := node.allocCpuMillis / 100 * 10
  let memScore := node.allocMemBytes / (100 * 1024 * 1024)
  let cpuScore := if cpuScore > 100 then 100 else cpuScore
  let memScore := if memScore > 50 then 50 else memScore
  cpuScore + memScore

/-- `scoreNode`: locality plus resource score. -/
def scoreNode (cl : Cluster) (pod : Pod) (node : Node) (gang : Gang) : Nat :=
  calculateLocalityScore cl node gang + calculateResourceScore node pod

/-- A host priority entry of the extender protocol. -/
structure HostPriority where
  host : String
  score : Nat
deriving DecidableEq, Repr

/-- `ScoreForExtender`: score every candidate node for the pod. -/
def ScoreForExtender (cl : Cluster) (pod : Pod) (nodes : List Node) (gang : Gang) :
    List HostPriority :=
  nodes.map (fun node => { host := node.name, score := scoreNode cl pod node gang })

-- --- spike.go: extender server ---

/-- The controller state machine (`SchedulerState`): IDLE is the
DORMANT state of the specification. -/
inductive SchedulerState where
  | idle
  | active
deriving DecidableEq, Repr

/-- `SchedulerState.String()`. -/
def stateName : SchedulerState → String
  | .idle => "IDLE"
  | .active => "ACTIVE"

/-- The extender request body (`ExtenderArgs`): a workload and a
candidate node list, either possibly absent. -/
structure ExtenderArgs where
  pod : Option Pod
  nodes : Option (List Node)
deriving DecidableEq, Repr

/-- The filter response (`ExtenderFilterResult`): surviving nodes plus
per-host rejection reasons. -/
structure ExtenderFilterResult where
  nodes : Option (List Node)
  failedNodes : List (String × String)
deriving DecidableEq, Repr

/-- `isNodeSchedulable`: false under the unschedulable taint, else true
exactly when some condition is `Ready=True`. -/
def isNodeSchedulable (node : Node) : Bool :=
  if node.taintKeys.any (fun k => k = "node.kubernetes.io/unschedulable") then false
  else node.conditions.any (fun c => c.condType = "Ready" ∧ c.status = "True")

/-- The response computation of `handleFilter` (counter and latency
recording, which do not affect the body, are elided).  IDLE or a
gang-less pod: echo the candidate list.  Otherwise, when some candidate
already hosts a gang member, keep exactly the schedulable candidates and
reject the rest; when none does, echo the candidate list (fresh gang). -/
def handleFilter (st : SchedulerState) (gm : GangManagerSt) (cl : Cluster)
    (args : ExtenderArgs) : ExtenderFilterResult :=
  if st = .idle then { nodes := args.nodes, failedNodes := [] }
  else
    match args.pod, args.nodes with
    | Option.none, _ => { nodes := args.nodes, failedNodes := [] }
    | _, Option.none => { nodes := args.nodes, failedNodes := [] }
    | some pod, some nodes =>
      match GetGangForPod gm pod with
      | Option.none => { nodes := some nodes, failedNodes := [] }
      | some gang =>
        if nodes.any (fun node => countGangMembersOnNode cl node gang > 0) then
          { nodes := some (nodes.filter isNodeSchedulable)
            failedNodes := (nodes.filter (fun node => !isNodeSchedulable node)).map
              (fun node => (node.name, "Node not schedulable")) }
        else { nodes := some nodes, failedNodes := [] }

/-- The response computation of `handlePrioritize`.  IDLE or a gang-less
pod: score 0 for every candidate; otherwise delegate to the scorer. -/
def handlePrioritize (st : SchedulerState) (gm : GangManagerSt) (cl : Cluster)
    (args : ExtenderArgs) : List HostPriority :=
  if st = .idle then
    match args.nodes with
    | Option.none => []
    | some nodes => nodes.map (fun node => { host := node.name, score := 0 })
  else
    match args.pod, args.nodes with
    | Option.none, _ => []
    | _, Option.none => []
    | some pod, some nodes =>
      match GetGangForPod gm pod with
      | Option.none => nodes.map (fun node => { host := node.name, score := 0 })
      | some gang => ScoreForExtender cl pod nodes gang

-- --- spike.go: controller loops ---

/-- `cooldownDuration` (seconds). -/
def cooldownDuration : Nat := 30

/-- The controller's shared state: state machine value, last positive
spike observation time, gang manager, graph, and metrics. -/
structure SchedulerSt where
  state : SchedulerState
  lastSpikeTime : Nat
  gm : GangManagerSt
  graph : DependencyGraphSt
  metrics : MetricsSt
deriving DecidableEq, Repr

/-- `SetState` on the controller: on an actual change, update the state
gauge label and bump the transition counter. -/
def setStateCtl (cfg : SchedulerSt) (st : SchedulerState) : SchedulerSt :=
  if cfg.state = st then cfg
  else
    { cfg with
        state := st
        metrics := IncrementCounter (MetricsSetState cfg.metrics (stateName st))
          "state_changes" }

/-- One tick of the spike poller (`checkForSpike`).  `tv` is the
telemetry observation, `podList` the outcome the cluster-wide pod list
would have during graph building, `now` the wall clock and `tag` the
monotonic gang tag.  Only an IDLE controller with a positive detection
does anything: stages are advanced, the graph is built (an error aborts
the attempt), gangs are formed for a non-empty group list, and the
controller becomes ACTIVE with `lastSpikeTime = now`. -/
def checkForSpike (sd : SpikeDetector) (tv : TelemetryView)
    (podList : Except Unit (List Pod)) (now tag : Nat)
    (cfg : SchedulerSt) : SchedulerSt :=
  if cfg.state = .idle then
    if Detect sd tv 0 then
      let gm := SetStage cfg.gm .detected
      let m := IncrementCounter cfg.metrics "spike_events"
      let gm := SetStage gm .graphBuilt
      match BuildFromAnnotations cfg.graph podList with
      | .error _ => { cfg with gm := gm, metrics := m }
      | .ok graph =>
        let groups := graph.groups
        let gmm :=
          if groups.length > 0 then
            let fm := FormGangs gm m tag groups
            (SetStage fm.1 .scheduling, fm.2)
          else (gm, m)
        let cfg := { cfg with gm := gmm.1, metrics := gmm.2, graph := graph }
        let cfg := setStateCtl cfg .active
        { cfg with lastSpikeTime := now }
    else cfg
  else cfg

/-- One tick of the cooldown checker (`cooldownChecker` loop body).
Only an ACTIVE controller past the cooldown window consults the
detector: a negative detection dissolves the gangs, clears the graph and
returns to IDLE; a positive one refreshes `lastSpikeTime`. -/
def cooldownTick (sd : SpikeDetector) (tv : TelemetryView) (now : Nat)
    (cfg : SchedulerSt) : SchedulerSt :=
  if cfg.state = .active then
    if now - cfg.lastSpikeTime > cooldownDuration then
      if !Detect sd tv 0 then
        let gm := SetStage cfg.gm .cooldown
        let dm := DissolveAll gm cfg.metrics
        let graph := ClearGraph cfg.graph
        let gm := SetStage dm.1 .none
        setStateCtl { cfg with gm := gm, metrics := dm.2, graph := graph } .idle
      else { cfg with lastSpikeTime := now }
    else cfg
  else cfg

-- --- Concrete fixtures used by witnesses and counterexamples ---

/-- A cluster whose every per-node pod list is empty. -/
def clusterNoPods : Cluster := ⟨fun _ => .ok []⟩

/-- A gang holding the single service `cartservice`. -/
def gangCart : Gang :=
  { id := "g1", members := ["cartservice"], nodePrefs := [], createdAt := 0
    stage := .formed }

/-- A gang manager with `gangCart` active and indexed. -/
def gmCart : GangManagerSt :=
  { activeGangs := [("g1", gangCart)], serviceToGang := [("cartservice", "g1")]
    stage := .formed }

/-- A cluster whose node `n1` hosts one `cartservice` replica. -/
def clusterCartOnN1 : Cluster :=
  ⟨fun n => if n = "n1" then .ok [{ name := "cartservice-abc-xyz", annotations := [] }]
            else .ok []⟩

/-- A cluster whose node `n1` hosts only a `frontend` replica, which is
not a member of `gangCart`. -/
def clusterFrontendOnN1 : Cluster :=
  ⟨fun n => if n = "n1" then .ok [{ name := "frontend-abc-xyz", annotations := [] }]
            else .ok []⟩

/-- A `cartservice` workload being placed. -/
def podCart : Pod := { name := "cartservice-def-uvw", annotations := [] }

/-- A ready, schedulable node with no members and maximal resource
bonus (10 cores, 5 GiB allocatable). -/
def nodeRich : Node :=
  { name := "n0", taintKeys := [], conditions := [{ condType := "Ready", status := "True" }]
    allocCpuMillis := 10000, allocMemBytes := 5 * 1024 * 1024 * 1024 }

/-- A ready, schedulable node named `n1` with zero allocatable. -/
def nodePoorN1 : Node :=
  { name := "n1", taintKeys := [], conditions := [{ condType := "Ready", status := "True" }]
    allocCpuMillis := 0, allocMemBytes := 0 }

/-- Node `n1` carrying the unschedulable taint. -/
def nodeTaintedN1 : Node :=
  { name := "n1", taintKeys := ["node.kubernetes.io/unschedulable"]
    conditions := [{ condType := "Ready", status := "True" }]
    allocCpuMillis := 0, allocMemBytes := 0 }

/-- A gang holding the services `cartservice` and `paymentservice`. -/
def gangPair : Gang :=
  { id := "g2", members := ["cartservice", "paymentservice"], nodePrefs := []
    createdAt := 0, stage := .formed }

/-- A cluster whose node `n1` hosts one `cartservice` and one
`paymentservice` replica. -/
def clusterTwoOnN1 : Cluster :=
  ⟨fun n => if n = "n1" then
      .ok [{ name := "cartservice-abc-xyz", annotations := [] },
           { name := "paymentservice-abc-xyz", annotations := [] }]
    else .ok []⟩

/-- A telemetry view with the backend unreachable. -/
def telemetryDown : TelemetryView :=
  { reachable := false, qps := .error (), errorRate := .error ()
    p95 := .error (), hpaIncrease := .error () }

/-- A reachable telemetry view reporting a 1500 RPS spike. -/
def telemetrySpike : TelemetryView :=
  { reachable := true, qps := .ok 1500, errorRate := .ok 0
    p95 := .ok 10, hpaIncrease := .ok 0 }

/-- A reachable, quiet telemetry view. -/
def telemetryQuiet : TelemetryView :=
  { reachable := true, qps := .ok 100, errorRate := .ok 0
    p95 := .ok 10, hpaIncrease := .ok 0 }

/-- The all-default spike detector. -/
def sdDefault : SpikeDetector := NewSpikeDetector ⟨Option.none, Option.none, Option.none⟩

-- ===================================================================
-- Claims
-- ===================================================================

/-- Claim C1: while the controller is DORMANT (IDLE), the filter
endpoint returns the candidate list unchanged with no rejections, and
the prioritize endpoint returns score 0 for every candidate host, for
any request. -/
theorem claim1_dormant_no_opinion (st : SchedulerState) (gm : GangManagerSt)
    (cl : Cluster) (args : ExtenderArgs) (h : st = .idle) :
    handleFilter st gm cl args = { nodes := args.nodes, failedNodes := [] } ∧
    handlePrioritize st gm cl args =
      (args.nodes.getD []).map (fun node => { host := node.name, score := 0 }) := by
  subst h
  refine ⟨by simp [handleFilter], ?_⟩
  cases hn : args.nodes <;> simp [handlePrioritize, hn]

/-- Witness for C1 at a concrete DORMANT request. -/
theorem claim1_dormant_no_opinion_witness :
    handleFilter .idle gmCart clusterCartOnN1 ⟨some podCart, some [nodeRich, nodePoorN1]⟩ =
      { nodes := some [nodeRich, nodePoorN1], failedNodes := [] } ∧
    handlePrioritize .idle gmCart clusterCartOnN1 ⟨some podCart, some [nodeRich, nodePoorN1]⟩ =
      ((some [nodeRich, nodePoorN1]).getD []).map (fun node => { host := node.name, score := 0 }) :=
  claim1_dormant_no_opinion .idle gmCart clusterCartOnN1
    ⟨some podCart, some [nodeRich, nodePoorN1]⟩ rfl

/-- The resource score in closed form: both caps as `min`. -/
theorem calculateResourceScore_eq_min (node : Node) (pod : Pod) :
    calculateResourceScore node pod =
      min (node.allocCpuMillis / 100 * 10) 100 +
      min (node.allocMemBytes / (100 * 1024 * 1024)) 50 := by
  unfold calculateResourceScore
  simp only [Nat.min_def]
  split_ifs <;> omega

/-- The resource score never exceeds 150. -/
theorem calculateResourceScore_le (node : Node) (pod : Pod) :
    calculateResourceScore node pod ≤ 150 := by
  rw [calculateResourceScore_eq_min]
  omega

/-- Claim C7: every prioritize score equals gang-members-on-host × 100
plus the capped CPU bonus `min(cpu_millis/100*10, 100)` plus the capped
memory bonus `min(mem_bytes/(100·1024·1024), 50)`, in exact integer
arithmetic. -/
theorem claim7_score_formula (cl : Cluster) (pod : Pod) (nodes : List Node)
    (gang : Gang) :
    ScoreForExtender cl pod nodes gang = nodes.map (fun node =>
      { host := node.name
        score := countGangMembersOnNode cl node gang * 100 +
          (min (node.allocCpuMillis / 100 * 10) 100 +
           min (node.allocMemBytes / (100 * 1024 * 1024)) 50) }) := by
  unfold ScoreForExtender
  refine List.map_congr_left (fun node _ => ?_)
  simp [scoreNode, calculateLocalityScore, calculateResourceScore_eq_min node pod]

/-- Counterexample to claim C3 as stated: node `n1` hosts one more gang
member than `n0` (one peer versus none), yet its total score 100 does
not exceed the peerless node's resource-saturated score 150. -/
theorem claim3_locality_counterexample :
    countGangMembersOnNode clusterCartOnN1 nodePoorN1 gangCart =
      countGangMembersOnNode clusterCartOnN1 nodeRich gangCart + 1 ∧
    scoreNode clusterCartOnN1 podCart nodePoorN1 gangCart = 100 ∧
    scoreNode clusterCartOnN1 podCart nodeRich gangCart = 150 ∧
    ¬ scoreNode clusterCartOnN1 podCart nodePoorN1 gangCart >
        scoreNode clusterCartOnN1 podCart nodeRich gangCart := by
  refine ⟨by decide, by decide, by decide, by decide⟩

/-- Claim C3, amended: the resource score is capped at 150, so an
advantage of at least two gang members forces a strictly greater total,
and an advantage of one forces a lead of at least 100 whenever the
advantaged host's resource score is not smaller; a single co-located
peer alone can still be outweighed by up to 150 resource points. -/
theorem claim3_locality_dominance (cl : Cluster) (pod : Pod) (gang : Gang)
    (na nb : Node) :
    (countGangMembersOnNode cl nb gang ≥ countGangMembersOnNode cl na gang + 2 →
      scoreNode cl pod nb gang > scoreNode cl pod na gang) ∧
    (countGangMembersOnNode cl nb gang ≥ countGangMembersOnNode cl na gang + 1 →
      calculateResourceScore nb pod ≥ calculateResourceScore na pod →
      scoreNode cl pod nb gang ≥ scoreNode cl pod na gang + 100) := by
  have ha := calculateResourceScore_le na pod
  have hb := calculateResourceScore_le nb pod
  unfold scoreNode calculateLocalityScore
  constructor
  · intro h
    omega
  · intro h h'
    omega

/-- Witness for C3 (amended), two members against none. -/
theorem claim3_locality_dominance_witness :
    scoreNode clusterTwoOnN1 podCart nodePoorN1 gangPair >
      scoreNode clusterTwoOnN1 podCart nodeRich gangPair :=
  (claim3_locality_dominance clusterTwoOnN1 podCart gangPair nodeRich nodePoorN1).1
    (by decide)

/-- Counterexample to claim C2 as stated: with the controller ACTIVE, a
gang workload, and a single candidate that hosts a gang member but
carries the unschedulable taint, the filter keeps only schedulable
candidates and returns the empty list. -/
theorem claim2_nonempty_counterexample :
    (⟨some podCart, some [nodeTaintedN1]⟩ : ExtenderArgs).nodes = some [nodeTaintedN1] ∧
    [nodeTaintedN1] ≠ ([] : List Node) ∧
    handleFilter .active gmCart clusterCartOnN1 ⟨some podCart, some [nodeTaintedN1]⟩ =
      { nodes := some [], failedNodes := [("n1", "Node not schedulable")] } := by
  refine ⟨rfl, by decide, by decide⟩

/-- Claim C2, amended: for a non-empty candidate list the filter output
is non-empty in every state and gang configuration, provided some
candidate is schedulable or no candidate hosts a member of the
workload's own gang — the gang the request's pod resolves to (the
all-unschedulable-peer-host case is the single exception). -/
theorem claim2_filter_nonempty (st : SchedulerState) (gm : GangManagerSt)
    (cl : Cluster) (args : ExtenderArgs) (ns : List Node)
    (h1 : args.nodes = some ns) (h2 : ns ≠ [])
    (h3 : ns.any isNodeSchedulable = true ∨
      ∀ pod gang, args.pod = some pod → GetGangForPod gm pod = some gang →
        ∀ node ∈ ns, countGangMembersOnNode cl node gang = 0) :
    ∃ ms, (handleFilter st gm cl args).nodes = some ms ∧ ms ≠ [] := by
  obtain ⟨apod, anodes⟩ := args
  simp only at h1 h3
  subst h1
  unfold handleFilter
  split
  · exact ⟨ns, rfl, h2⟩
  · cases apod with
    | none => exact ⟨ns, rfl, h2⟩
    | some pod =>
      cases hg : GetGangForPod gm pod with
      | none => simp only [hg]; exact ⟨ns, rfl, h2⟩
      | some gang =>
        simp only [hg]
        split
        · rename_i hmem
          rcases h3 with h3 | h3
          · rcases List.any_eq_true.mp h3 with ⟨node, hin, hsched⟩
            refine ⟨ns.filter isNodeSchedulable, rfl, ?_⟩
            intro hnil
            have := List.filter_eq_nil_iff.mp hnil node hin
            simp [hsched] at this
          · rcases List.any_eq_true.mp hmem with ⟨node, hin, hcnt⟩
            have := h3 pod gang rfl hg node hin
            simp [this] at hcnt
        · exact ⟨ns, rfl, h2⟩

/-- Witness for C2 (amended): ACTIVE state, gang workload, a single
unschedulable candidate hosting only a non-gang pod — the fresh-gang
branch keeps the full (non-empty) candidate list. -/
theorem claim2_filter_nonempty_witness :
    ∃ ms, (handleFilter .active gmCart clusterFrontendOnN1
      ⟨some podCart, some [nodeTaintedN1]⟩).nodes = some ms ∧ ms ≠ [] :=
  claim2_filter_nonempty .active gmCart clusterFrontendOnN1
    ⟨some podCart, some [nodeTaintedN1]⟩ [nodeTaintedN1] rfl (by decide)
    (Or.inr (by
      intro pod gang hpod hgang node hn
      simp only at hpod
      cases hpod
      have he : GetGangForPod gmCart podCart = some gangCart := rfl
      rw [he] at hgang
      cases hgang
      simp only [List.mem_singleton] at hn
      subst hn
      decide))

/-- After `DissolveAll` the active-gang set is always empty. -/
theorem DissolveAll_activeGangs (gm : GangManagerSt) (m : MetricsSt) :
    (DissolveAll gm m).1.activeGangs = [] := by
  unfold DissolveAll
  split
  · rename_i h
    exact List.length_eq_zero.mp h
  · rfl

/-- `DissolveAll` bumps the dissolution counter exactly once when any
gang is active, and not at all otherwise. -/
theorem DissolveAll_counter (gm : GangManagerSt) (m : MetricsSt) :
    (DissolveAll gm m).2.gangsDisssolved =
      (if gm.activeGangs = [] then m.gangsDisssolved else m.gangsDisssolved + 1) := by
  unfold DissolveAll
  rcases gm.activeGangs with _ | ⟨p, rest⟩ <;> simp [IncrementCounter]

/-- `setStateCtl` always lands on the requested state. -/
theorem setStateCtl_state (cfg : SchedulerSt) (st : SchedulerState) :
    (setStateCtl cfg st).state = st := by
  unfold setStateCtl
  split
  · rename_i hst
    exact hst
  · rfl

/-- `setStateCtl` leaves the gang manager untouched. -/
theorem setStateCtl_gm (cfg : SchedulerSt) (st : SchedulerState) :
    (setStateCtl cfg st).gm = cfg.gm := by
  unfold setStateCtl
  split <;> rfl

/-- `setStateCtl` never touches the dissolution counter. -/
theorem setStateCtl_gangsDisssolved (cfg : SchedulerSt) (st : SchedulerState) :
    (setStateCtl cfg st).metrics.gangsDisssolved = cfg.metrics.gangsDisssolved := by
  unfold setStateCtl
  split
  · rfl
  · simp [IncrementCounter, MetricsSetState]

/-- Claim C4: an ACTIVE controller leaves ACTIVE only when the cooldown
window has elapsed and the current detection is negative; that
transition empties the active-gang set and clears the graph, while an
elapsed window with a still-positive detection merely refreshes
`lastSpikeTime` and stays ACTIVE, and an unelapsed window changes
nothing. -/
theorem claim4_cooldown_transition (sd : SpikeDetector) (tv : TelemetryView)
    (now : Nat) (cfg : SchedulerSt) (h : cfg.state = .active) :
    (now - cfg.lastSpikeTime > cooldownDuration → Detect sd tv 0 = false →
      (cooldownTick sd tv now cfg).state = .idle ∧
      (cooldownTick sd tv now cfg).gm.activeGangs = [] ∧
      (cooldownTick sd tv now cfg).graph.groups = [] ∧
      (cooldownTick sd tv now cfg).graph.built = false) ∧
    (now - cfg.lastSpikeTime > cooldownDuration → Detect sd tv 0 = true →
      (cooldownTick sd tv now cfg).state = .active ∧
      (cooldownTick sd tv now cfg).lastSpikeTime = now ∧
      (cooldownTick sd tv now cfg).gm = cfg.gm) ∧
    (¬ now - cfg.lastSpikeTime > cooldownDuration →
      cooldownTick sd tv now cfg = cfg) ∧
    ((cooldownTick sd tv now cfg).state ≠ cfg.state →
      now - cfg.lastSpikeTime > cooldownDuration ∧ Detect sd tv 0 = false) := by
  by_cases he : now - cfg.lastSpikeTime > cooldownDuration
  · by_cases hd : Detect sd tv 0 = true
    · have h1 : (cooldownTick sd tv now cfg).state = .active ∧
          (cooldownTick sd tv now cfg).lastSpikeTime = now ∧
          (cooldownTick sd tv now cfg).gm = cfg.gm := by
        simp [cooldownTick, h, he, hd]
      refine ⟨?_, fun _ _ => h1, fun hn => absurd he hn, fun hne => ?_⟩
      · intro _ hf
        rw [hf] at hd
        simp at hd
      · exact absurd (by rw [h1.1, h]) hne
    · have hf : Detect sd tv 0 = false := by
        cases hD : Detect sd tv 0
        · rfl
        · exact absurd hD hd
      have h0 : (cooldownTick sd tv now cfg).state = .idle ∧
          (cooldownTick sd tv now cfg).gm.activeGangs = [] ∧
          (cooldownTick sd tv now cfg).graph.groups = [] ∧
          (cooldownTick sd tv now cfg).graph.built = false := by
        simp only [cooldownTick, h, if_pos rfl, if_pos he, hf, Bool.not_false, if_pos rfl]
        refine ⟨?_, ?_, ?_, ?_⟩ <;>
          simp [setStateCtl, SetStage, ClearGraph, DissolveAll_activeGangs]
      refine ⟨fun _ _ => h0, ?_, fun hn => absurd he hn, fun _ => ⟨he, hf⟩⟩
      intro _ ht
      rw [ht] at hf
      cases hf
  · have h2 : cooldownTick sd tv now cfg = cfg := by
      simp [cooldownTick, h, he]
    refine ⟨fun hc => absurd hc he, fun hc => absurd hc he, fun _ => h2, fun hne => ?_⟩
    exact absurd (by rw [h2]) hne

/-- Witness for C4 at a concrete ACTIVE configuration past cooldown
with quiet telemetry. -/
theorem claim4_cooldown_transition_witness :
    (cooldownTick sdDefault telemetryQuiet 31
      { state := .active, lastSpikeTime := 0, gm := gmCart
        graph := { groups := experimentDefaults, built := true }
        metrics := NewNEXUSMetrics }).state = .idle ∧
    (cooldownTick sdDefault telemetryQuiet 31
      { state := .active, lastSpikeTime := 0, gm := gmCart
        graph := { groups := experimentDefaults, built := true }
        metrics := NewNEXUSMetrics }).gm.activeGangs = [] ∧
    (cooldownTick sdDefault telemetryQuiet 31
      { state := .active, lastSpikeTime := 0, gm := gmCart
        graph := { groups := experimentDefaults, built := true }
        metrics := NewNEXUSMetrics }).graph.groups = [] ∧
    (cooldownTick sdDefault telemetryQuiet 31
      { state := .active, lastSpikeTime := 0, gm := gmCart
        graph := { groups := experimentDefaults, built := true }
        metrics := NewNEXUSMetrics }).graph.built = false :=
  ((claim4_cooldown_transition sdDefault telemetryQuiet 31
    { state := .active, lastSpikeTime := 0, gm := gmCart
      graph := { groups := experimentDefaults, built := true }
      metrics := NewNEXUSMetrics } rfl).1 (by decide) (by decide))

/-- Counterexample to claim C9 as stated: forming the two default gangs
and dissolving them bumps `gangs_dissolved_total` from 0 to 1, not to
2, so the counter does not increase by the number of gangs formed. -/
theorem claim9_dissolved_counter_counterexample :
    (FormGangs emptyGangManager NewNEXUSMetrics 0 experimentDefaults).1.activeGangs.length = 2 ∧
    (DissolveAll (FormGangs emptyGangManager NewNEXUSMetrics 0 experimentDefaults).1
      (FormGangs emptyGangManager NewNEXUSMetrics 0 experimentDefaults).2).2.gangsDisssolved = 1 ∧
    (1 : Nat) ≠ 2 := by
  refine ⟨by decide, by decide, by decide⟩

/-- Claim C9, amended: a cooldown transition that dissolves a non-empty
active-gang set increments `gangs_dissolved_total` by exactly one —
once per dissolution event, regardless of how many gangs were formed —
and empties the active-gang set. -/
theorem claim9_dissolved_counter (sd : SpikeDetector) (tv : TelemetryView)
    (now : Nat) (cfg : SchedulerSt) (h : cfg.state = .active)
    (he : now - cfg.lastSpikeTime > cooldownDuration)
    (hf : Detect sd tv 0 = false) (hg : cfg.gm.activeGangs ≠ []) :
    (cooldownTick sd tv now cfg).metrics.gangsDisssolved =
      cfg.metrics.gangsDisssolved + 1 ∧
    (cooldownTick sd tv now cfg).gm.activeGangs = [] := by
  simp only [cooldownTick, h, he, hf, Bool.not_false, eq_self_iff_true, if_true]
  constructor
  · rw [setStateCtl_gangsDisssolved]
    simp [DissolveAll_counter, SetStage, hg]
  · rw [setStateCtl_gm]
    simp [SetStage, DissolveAll_activeGangs]

/-- Witness for C9 (amended) at a concrete two-gang dissolution. -/
theorem claim9_dissolved_counter_witness :
    (cooldownTick sdDefault telemetryDown 31
      { state := .active, lastSpikeTime := 0, gm := gmCart
        graph := { groups := experimentDefaults, built := true }
        metrics := NewNEXUSMetrics }).metrics.gangsDisssolved =
      NewNEXUSMetrics.gangsDisssolved + 1 ∧
    (cooldownTick sdDefault telemetryDown 31
      { state := .active, lastSpikeTime := 0, gm := gmCart
        graph := { groups := experimentDefaults, built := true }
        metrics := NewNEXUSMetrics }).gm.activeGangs = [] :=
  claim9_dissolved_counter sdDefault telemetryDown 31
    { state := .active, lastSpikeTime := 0, gm := gmCart
      graph := { groups := experimentDefaults, built := true }
      metrics := NewNEXUSMetrics } rfl (by decide) (by decide) (by decide)

/-- A positive detection with a successful inventory list always
activates an IDLE controller. -/
theorem checkForSpike_ok_activates (sd : SpikeDetector) (tv : TelemetryView)
    (pods : List Pod) (now tag : Nat) (cfg : SchedulerSt)
    (h : cfg.state = .idle) (hd : Detect sd tv 0 = true) :
    (checkForSpike sd tv (.ok pods) now tag cfg).state = .active := by
  simp only [checkForSpike, h, hd, eq_self_iff_true, if_true, BuildFromAnnotations]
  rw [setStateCtl_state]

/-- Claim C5: when the inventory list fails during an activation
attempt, the controller stays DORMANT with its active-gang set and
graph untouched, and the attempt is retried: a later poll tick with a
recovered inventory and a positive detection activates. -/
theorem claim5_build_failure_dormant (sd : SpikeDetector) (tv tv' : TelemetryView)
    (pods : List Pod) (now tag now' tag' : Nat) (cfg : SchedulerSt)
    (h : cfg.state = .idle) (hspike : Detect sd tv' 0 = true) :
    (checkForSpike sd tv (.error ()) now tag cfg).state = .idle ∧
    (checkForSpike sd tv (.error ()) now tag cfg).gm.activeGangs = cfg.gm.activeGangs ∧
    (checkForSpike sd tv (.error ()) now tag cfg).graph = cfg.graph ∧
    (checkForSpike sd tv' (.ok pods) now' tag'
      (checkForSpike sd tv (.error ()) now tag cfg)).state = .active := by
  have hmain : (checkForSpike sd tv (.error ()) now tag cfg).state = .idle ∧
      (checkForSpike sd tv (.error ()) now tag cfg).gm.activeGangs = cfg.gm.activeGangs ∧
      (checkForSpike sd tv (.error ()) now tag cfg).graph = cfg.graph := by
    by_cases hd : Detect sd tv 0 = true
    · simp [checkForSpike, h, hd, BuildFromAnnotations, SetStage]
    · simp [checkForSpike, h, hd]
  refine ⟨hmain.1, hmain.2.1, hmain.2.2, ?_⟩
  exact checkForSpike_ok_activates sd tv' pods now' tag' _ hmain.1 hspike

/-- Witness for C5: a concrete failed build attempt followed by a
recovered one. -/
theorem claim5_build_failure_dormant_witness :
    (checkForSpike sdDefault telemetrySpike (.error ()) 5 5
      { state := .idle, lastSpikeTime := 0, gm := emptyGangManager
        graph := NewDependencyGraph, metrics := NewNEXUSMetrics }).state = .idle ∧
    (checkForSpike sdDefault telemetrySpike (.error ()) 5 5
      { state := .idle, lastSpikeTime := 0, gm := emptyGangManager
        graph := NewDependencyGraph, metrics := NewNEXUSMetrics }).gm.activeGangs =
      emptyGangManager.activeGangs ∧
    (checkForSpike sdDefault telemetrySpike (.error ()) 5 5
      { state := .idle, lastSpikeTime := 0, gm := emptyGangManager
        graph := NewDependencyGraph, metrics := NewNEXUSMetrics }).graph =
      NewDependencyGraph ∧
    (checkForSpike sdDefault telemetrySpike (.ok []) 15 15
      (checkForSpike sdDefault telemetrySpike (.error ()) 5 5
        { state := .idle, lastSpikeTime := 0, gm := emptyGangManager
          graph := NewDependencyGraph, metrics := NewNEXUSMetrics })).state = .active :=
  claim5_build_failure_dormant sdDefault telemetrySpike telemetrySpike [] 5 5 15 15
    { state := .idle, lastSpikeTime := 0, gm := emptyGangManager
      graph := NewDependencyGraph, metrics := NewNEXUSMetrics } rfl (by decide)

/-- Claim C10: both controller loops hand the detector the constant
fallback signal 0 while the fallback threshold is hard-wired to 5, so
whenever the telemetry liveness probe fails the detector answers false:
the fallback path can neither activate an IDLE controller nor keep an
ACTIVE one alive past its cooldown window. -/
theorem claim10_fallback_inert (env : EnvConfig) (tv : TelemetryView)
    (podList : Except Unit (List Pod)) (now tag now2 : Nat)
    (cfg cfg2 : SchedulerSt) (hr : tv.reachable = false) :
    (NewSpikeDetector env).fallbackThreshold = 5 ∧
    Detect (NewSpikeDetector env) tv 0 = false ∧
    (cfg.state = .idle →
      checkForSpike (NewSpikeDetector env) tv podList now tag cfg = cfg) ∧
    (cfg2.state = .active → now2 - cfg2.lastSpikeTime > cooldownDuration →
      (cooldownTick (NewSpikeDetector env) tv now2 cfg2).state = .idle) := by
  have hdet : Detect (NewSpikeDetector env) tv 0 = false := by
    simp [Detect, hr, NewSpikeDetector]
  refine ⟨rfl, hdet, fun hidle => ?_, fun hact he => ?_⟩
  · simp [checkForSpike, hidle, hdet]
  · simp only [cooldownTick, hact, he, hdet, Bool.not_false, eq_self_iff_true, if_true]
    rw [setStateCtl_state]

/-- Witness for C10 with the telemetry backend down. -/
theorem claim10_fallback_inert_witness :
    (NewSpikeDetector ⟨Option.none, Option.none, Option.none⟩).fallbackThreshold = 5 ∧
    Detect (NewSpikeDetector ⟨Option.none, Option.none, Option.none⟩) telemetryDown 0 = false ∧
    ((⟨.idle, 0, emptyGangManager, NewDependencyGraph, NewNEXUSMetrics⟩ : SchedulerSt).state = .idle →
      checkForSpike (NewSpikeDetector ⟨Option.none, Option.none, Option.none⟩) telemetryDown
        (.ok []) 7 7 ⟨.idle, 0, emptyGangManager, NewDependencyGraph, NewNEXUSMetrics⟩ =
        ⟨.idle, 0, emptyGangManager, NewDependencyGraph, NewNEXUSMetrics⟩) ∧
    ((⟨.active, 0, gmCart, NewDependencyGraph, NewNEXUSMetrics⟩ : SchedulerSt).state = .active →
      31 - (⟨.active, 0, gmCart, NewDependencyGraph, NewNEXUSMetrics⟩ : SchedulerSt).lastSpikeTime >
          cooldownDuration →
      (cooldownTick (NewSpikeDetector ⟨Option.none, Option.none, Option.none⟩) telemetryDown 31
        ⟨.active, 0, gmCart, NewDependencyGraph, NewNEXUSMetrics⟩).state = .idle) :=
  claim10_fallback_inert ⟨Option.none, Option.none, Option.none⟩ telemetryDown
    (.ok []) 7 7 31 ⟨.idle, 0, emptyGangManager, NewDependencyGraph, NewNEXUSMetrics⟩
    ⟨.active, 0, gmCart, NewDependencyGraph, NewNEXUSMetrics⟩ rfl

/-- The split of a character list is never empty. -/
theorem splitChar_ne_nil (sep : Char) (cs : List Char) : splitChar sep cs ≠ [] := by
  cases cs with
  | nil => simp [splitChar]
  | cons c rest =>
    simp only [splitChar]
    split
    · simp
    · split <;> simp

/-- Unfolding the hyphen join over a list of two or more components. -/
theorem joinHyphens_data_cons (s r1 : String) (r2 : List String) :
    (joinHyphens (s :: r1 :: r2)).data = s.data ++ '-' :: (joinHyphens (r1 :: r2)).data := by
  show (s ++ "-" ++ joinHyphens (r1 :: r2)).data = _
  rw [String.data_append, String.data_append, List.append_assoc]
  rfl

/-- Joining the hyphen split recovers the original characters. -/
theorem joinHyphens_splitChar (cs : List Char) :
    (joinHyphens (splitChar '-' cs)).data = cs := by
  induction cs with
  | nil => rfl
  | cons c rest ih =>
    simp only [splitChar]
    cases h : splitChar '-' rest with
    | nil => exact absurd h (splitChar_ne_nil '-' rest)
    | cons hd tl =>
      rw [h] at ih
      show (joinHyphens (if c = '-' then "" :: hd :: tl
        else String.mk (c :: hd.data) :: tl)).data = c :: rest
      by_cases hc : c = '-'
      · rw [if_pos hc]
        subst hc
        rw [joinHyphens_data_cons, ih]
        rfl
      · rw [if_neg hc]
        cases tl with
        | nil =>
          have ih' : hd.data = rest := ih
          show c :: hd.data = c :: rest
          rw [ih']
        | cons t1 t2 =>
          rw [joinHyphens_data_cons] at ih
          rw [joinHyphens_data_cons]
          show (c :: hd.data) ++ '-' :: (joinHyphens (t1 :: t2)).data = c :: rest
          rw [List.cons_append, ih]

/-- The spec's scan agrees with the source's scan wherever the latter
runs, and past it only the one-component candidate remains. -/
theorem specScan_via_scan (parts : List String) (i : Nat) :
    specScanKnown parts (i + 1) =
      match scanKnown parts (i + 1) with
      | some c => some c
      | Option.none => specScanKnown parts 1 := by
  induction i with
  | zero => simp [scanKnown]
  | succ k ihk =>
    have e1 : specScanKnown parts (k + 1 + 1) =
        (if isKnownService (joinHyphens (parts.take (k + 1 + 1))) = true
         then some (joinHyphens (parts.take (k + 1 + 1)))
         else specScanKnown parts (k + 1)) := rfl
    have e2 : scanKnown parts (k + 1 + 1) =
        (if isKnownService (joinHyphens (parts.take (k + 1 + 1))) = true
         then some (joinHyphens (parts.take (k + 1 + 1)))
         else scanKnown parts (k + 1)) := rfl
    rw [e1, e2]
    split_ifs with hknown
    · rfl
    · exact ihk

/-- Counterexample to claim C8 as stated: the workload name
`redis-cart` has the known service `redis-cart` as its longest matching
left-prefix, yet the derivation returns `redis`: names with fewer than
three hyphen components never consult the dictionary. -/
theorem claim8_longest_match_counterexample :
    isKnownService "redis-cart" = true ∧
    specExtractServiceName "redis-cart" = "redis-cart" ∧
    extractServiceName "redis-cart" = "redis" ∧
    "redis" ≠ "redis-cart" :=
  ⟨by decide, by decide, by decide, by decide⟩

/-- Claim C8, amended: for every workload name that is not itself a
known service, the derivation returns the longest left-prefix of
hyphen-delimited components matching the dictionary, and the first
component when none matches — i.e. it agrees with the spec rule
everywhere except on whole names that are known services (the scan
skips the full name and, for names of fewer than three components, the
dictionary entirely). -/
theorem claim8_extract_matches_spec (name : String)
    (h : isKnownService name = false) :
    extractServiceName name = specExtractServiceName name := by
  have hjoin : joinHyphens (splitHyphens name) = name :=
    congrArg String.mk (joinHyphens_splitChar name.data)
  have hne : splitHyphens name ≠ [] := splitChar_ne_nil '-' name.data
  unfold extractServiceName specExtractServiceName
  rcases hp : splitHyphens name with _ | ⟨p0, _ | ⟨p1, _ | ⟨p2, ptail⟩⟩⟩
  · exact absurd hp hne
  · -- one component: both sides return it
    rw [hp] at hjoin
    have hk0 : isKnownService (joinHyphens [p0]) = false := by
      rw [hjoin]
      exact h
    simp only [List.length_cons, List.length_nil, Nat.zero_add]
    rw [if_neg (by omega), if_pos (by omega)]
    have e1 : specScanKnown [p0] 1 =
        (if isKnownService (joinHyphens [p0]) = true
         then some (joinHyphens [p0]) else Option.none) := rfl
    rw [e1, if_neg (by simp [hk0])]
  · -- two components: both sides return the first
    rw [hp] at hjoin
    have hkfull : isKnownService (joinHyphens [p0, p1]) = false := by
      rw [hjoin]
      exact h
    simp only [List.length_cons, List.length_nil, Nat.zero_add]
    rw [if_neg (by omega), if_pos (by omega)]
    have e1 : specScanKnown [p0, p1] 2 =
        (if isKnownService (joinHyphens [p0, p1]) = true
         then some (joinHyphens [p0, p1]) else specScanKnown [p0, p1] 1) := rfl
    have e2 : specScanKnown [p0, p1] 1 =
        (if isKnownService (joinHyphens [p0]) = true
         then some (joinHyphens [p0]) else Option.none) := rfl
    rw [e1, if_neg (by simp [hkfull]), e2]
    by_cases hk : isKnownService (joinHyphens [p0]) = true
    · rw [if_pos hk]
      rfl
    · rw [if_neg hk]
  · -- three or more components
    rw [hp] at hjoin
    simp only [List.length_cons]
    rw [if_pos (by omega)]
    have htake : (p0 :: p1 :: p2 :: ptail).take (ptail.length + 1 + 1 + 1) =
        p0 :: p1 :: p2 :: ptail :=
      List.take_of_length_le (by simp)
    have hkfull : isKnownService (joinHyphens (p0 :: p1 :: p2 :: ptail)) = false := by
      rw [hjoin]
      exact h
    have estep : specScanKnown (p0 :: p1 :: p2 :: ptail) (ptail.length + 1 + 1 + 1) =
        (if isKnownService
            (joinHyphens ((p0 :: p1 :: p2 :: ptail).take (ptail.length + 1 + 1 + 1))) = true
         then some (joinHyphens ((p0 :: p1 :: p2 :: ptail).take (ptail.length + 1 + 1 + 1)))
         else specScanKnown (p0 :: p1 :: p2 :: ptail) (ptail.length + 1 + 1)) := rfl
    have hlen : ptail.length + 1 + 1 + 1 - 1 = ptail.length + 1 + 1 := rfl
    rw [hlen, estep, if_neg (by simp [htake, hkfull]),
      specScan_via_scan (p0 :: p1 :: p2 :: ptail) (ptail.length + 1)]
    cases hscan : scanKnown (p0 :: p1 :: p2 :: ptail) (ptail.length + 1 + 1) with
    | some c => rfl
    | none =>
      have e1 : specScanKnown (p0 :: p1 :: p2 :: ptail) 1 =
          (if isKnownService (joinHyphens [p0]) = true
           then some (joinHyphens [p0]) else Option.none) := rfl
      rw [e1]
      by_cases hk : isKnownService (joinHyphens [p0]) = true
      · rw [if_pos hk]
        rfl
      · rw [if_neg hk]

/-- Witness for C8 (amended) at a concrete three-component name. -/
theorem claim8_extract_matches_spec_witness :
    extractServiceName "cartservice-7f9b8-xk2p" =
      specExtractServiceName "cartservice-7f9b8-xk2p" :=
  claim8_extract_matches_spec "cartservice-7f9b8-xk2p" (by decide)

/-- Gang ids with the same tag are injective in the group name. -/
theorem gangIdFor_inj (n1 n2 : String) (tag : Nat)
    (h : gangIdFor n1 tag = gangIdFor n2 tag) : n1 = n2 := by
  have hd := congrArg String.data h
  simp only [gangIdFor, String.data_append] at hd
  have h1 := List.append_cancel_right hd
  have h2 := List.append_cancel_right h1
  have h3 := List.append_cancel_left h2
  exact congrArg String.mk h3

/-- Writing a fresh key appends the binding. -/
theorem upsert_of_not_mem {α : Type} (l : List (String × α)) (k : String) (v : α)
    (h : k ∉ l.map Prod.fst) : upsert l k v = l ++ [(k, v)] := by
  induction l with
  | nil => rfl
  | cons p rest ih =>
    obtain ⟨k', v'⟩ := p
    simp only [List.map_cons, List.mem_cons] at h
    push_neg at h
    simp only [upsert]
    rw [if_neg (fun hk => h.1 hk.symm), ih h.2]
    rfl

/-- A successful lookup names a binding of the list. -/
theorem lookupStr_mem {α : Type} (l : List (String × α)) (k : String) (v : α)
    (h : lookupStr l k = some v) : (k, v) ∈ l := by
  induction l with
  | nil => cases h
  | cons p rest ih =>
    obtain ⟨k', v'⟩ := p
    simp only [lookupStr] at h
    by_cases hk : k' = k
    · rw [if_pos hk] at h
      cases h
      subst hk
      simp
    · rw [if_neg hk] at h
      simp [ih h]

/-- With duplicate-free keys, every binding is found by lookup. -/
theorem lookupStr_of_nodup {α : Type} (l : List (String × α)) (k : String) (v : α)
    (hnd : (l.map Prod.fst).Nodup) (h : (k, v) ∈ l) : lookupStr l k = some v := by
  induction l with
  | nil => cases h
  | cons p rest ih =>
    obtain ⟨k', v'⟩ := p
    simp only [List.map_cons, List.nodup_cons] at hnd
    rcases List.mem_cons.mp h with heq | hmem
    · cases heq
      simp [lookupStr]
    · have hk : k' ≠ k := by
        intro he
        subst he
        exact hnd.1 (List.mem_map.mpr ⟨(k', v), hmem, rfl⟩)
      simp only [lookupStr]
      rw [if_neg hk]
      exact ih hnd.2 hmem

/-- Folding fresh-keyed upserts over a list appends the bindings. -/
theorem foldl_upsert_eq_append {α β : Type} (key : α → String) (val : α → β) :
    ∀ (xs : List α) (acc : List (String × β)),
    (∀ x ∈ xs, key x ∉ acc.map Prod.fst) →
    (xs.map key).Nodup →
    xs.foldl (fun l x => upsert l (key x) (val x)) acc =
      acc ++ xs.map (fun x => (key x, val x)) := by
  intro xs
  induction xs with
  | nil =>
    intro acc _ _
    simp
  | cons x rest ih =>
    intro acc hfresh hnodup
    simp only [List.map_cons, List.nodup_cons] at hnodup
    simp only [List.foldl_cons]
    rw [upsert_of_not_mem _ _ _ (hfresh x (by simp))]
    rw [ih (acc ++ [(key x, val x)]) ?_ hnodup.2]
    · simp
    · intro y hy
      simp only [List.map_append, List.mem_append]
      push_neg
      refine ⟨hfresh y (by simp [hy]), ?_⟩
      simp only [List.map_cons, List.map_nil, List.mem_singleton]
      intro hc
      exact hnodup.1 (hc ▸ List.mem_map.mpr ⟨y, hy, rfl⟩)

/-- The gang-map component of the formation fold. -/
theorem foldl_formStep_activeGangs (tag : Nat) :
    ∀ (groups : List RuntimeGroup) (acc : GangManagerSt),
    (groups.foldl (formStep tag) acc).activeGangs =
      groups.foldl
        (fun l g => upsert l (gangIdFor g.name tag) (mkGang tag g)) acc.activeGangs := by
  intro groups
  induction groups with
  | nil => intro acc; rfl
  | cons g rest ih =>
    intro acc
    simp only [List.foldl_cons]
    rw [ih]
    rfl

/-- The index component of the formation fold. -/
theorem foldl_formStep_serviceToGang (tag : Nat) :
    ∀ (groups : List RuntimeGroup) (acc : GangManagerSt),
    (groups.foldl (formStep tag) acc).serviceToGang =
      groups.foldl
        (fun idx g => g.services.foldl
          (fun idx svc => upsert idx svc (gangIdFor g.name tag)) idx)
        acc.serviceToGang := by
  intro groups
  induction groups with
  | nil => intro acc; rfl
  | cons g rest ih =>
    intro acc
    simp only [List.foldl_cons]
    rw [ih]
    rfl

/-- The service index built by the formation fold, in closed form:
one binding per (group, member) pair, provided the groups' member
lists are pairwise disjoint and duplicate-free. -/
theorem serviceIdx_eq (tag : Nat) :
    ∀ (groups : List RuntimeGroup) (acc : List (String × String)),
    (∀ g ∈ groups, ∀ s ∈ g.services, s ∉ acc.map Prod.fst) →
    groups.Pairwise (fun a b => ∀ s, s ∈ a.services → s ∉ b.services) →
    (∀ g ∈ groups, g.services.Nodup) →
    groups.foldl
      (fun idx g => g.services.foldl
        (fun idx svc => upsert idx svc (gangIdFor g.name tag)) idx) acc =
      acc ++ groups.flatMap
        (fun g => g.services.map (fun s => (s, gangIdFor g.name tag))) := by
  intro groups
  induction groups with
  | nil =>
    intro acc _ _ _
    simp
  | cons g rest ih =>
    intro acc hfresh hdisj hnd
    simp only [List.foldl_cons]
    have hhead : g.services.foldl
        (fun idx svc => upsert idx svc (gangIdFor g.name tag)) acc =
        acc ++ g.services.map (fun s => (s, gangIdFor g.name tag)) := by
      have := foldl_upsert_eq_append (fun s => s)
        (fun _ => gangIdFor g.name tag) g.services acc
        (fun s hs => hfresh g (by simp) s hs) (by simpa using hnd g (by simp))
      simpa using this
    rw [hhead]
    rw [ih (acc ++ g.services.map (fun s => (s, gangIdFor g.name tag))) ?_
      (List.Pairwise.sublist (by simp) hdisj) (fun g' hg' => hnd g' (by simp [hg']))]
    · simp [List.flatMap_cons]
    · intro g' hg' s hs
      simp only [List.map_append, List.mem_append]
      push_neg
      refine ⟨hfresh g' (by simp [hg']) s hs, ?_⟩
      intro hc
      rcases List.mem_map.mp hc with ⟨q, hq, hqe⟩
      rcases List.mem_map.mp hq with ⟨s', hs', rfl⟩
      have hss : s = s' := hqe.symm
      subst hss
      exact (List.pairwise_cons.mp hdisj).1 g' hg' s hs' hs

/-- Counterexample to claim C6 as stated: two coordination groups can
share a service (for instance via `depends-on` annotations), and the
formation then yields two distinct active gangs whose member lists both
contain that service — their member lists are not disjoint. -/
theorem claim6_overlap_counterexample :
    ((FormGangs emptyGangManager NewNEXUSMetrics 0
      [{ name := "a", services := ["x"] },
       { name := "b", services := ["x"] }]).1.activeGangs.map Prod.fst =
      ["gang-a-0", "gang-b-0"]) ∧
    ("gang-a-0" : String) ≠ "gang-b-0" ∧
    (∀ p ∈ (FormGangs emptyGangManager NewNEXUSMetrics 0
      [{ name := "a", services := ["x"] },
       { name := "b", services := ["x"] }]).1.activeGangs,
      "x" ∈ p.2.members) :=
  ⟨by decide, by decide, by decide⟩

/-- Claim C6, amended: provided the formed groups carry pairwise
distinct names and pairwise disjoint, duplicate-free member lists (as
the built-in defaults do; annotation-derived groups can overlap through
`depends-on`), every service belongs to at most one active gang —
distinct gangs have disjoint member lists — and the service-to-gang
index is a partial function consistent with membership: a successful
lookup names an active gang that contains the service. -/
theorem claim6_service_in_one_gang (gm : GangManagerSt) (m : MetricsSt)
    (tag : Nat) (groups : List RuntimeGroup)
    (hnames : groups.Pairwise (fun a b => a.name ≠ b.name))
    (hdisj : groups.Pairwise (fun a b => ∀ s, s ∈ a.services → s ∉ b.services))
    (hnd : ∀ g ∈ groups, g.services.Nodup) :
    (∀ p ∈ (FormGangs gm m tag groups).1.activeGangs,
     ∀ q ∈ (FormGangs gm m tag groups).1.activeGangs,
       p.1 ≠ q.1 → ∀ s, s ∈ p.2.members → s ∉ q.2.members) ∧
    (∀ svc gid,
      lookupStr (FormGangs gm m tag groups).1.serviceToGang svc = some gid →
      ∃ gang, lookupStr (FormGangs gm m tag groups).1.activeGangs gid = some gang ∧
        svc ∈ gang.members) := by
  have hids : (groups.map (fun g => gangIdFor g.name tag)).Nodup := by
    show (groups.map (fun g => gangIdFor g.name tag)).Pairwise (· ≠ ·)
    rw [List.pairwise_map]
    exact hnames.imp (fun h hc => h (gangIdFor_inj _ _ tag hc))
  have hact : (FormGangs gm m tag groups).1.activeGangs =
      groups.map (fun g => (gangIdFor g.name tag, mkGang tag g)) := by
    show (groups.foldl (formStep tag)
      { gm with activeGangs := [], serviceToGang := [] }).activeGangs = _
    rw [foldl_formStep_activeGangs]
    have := foldl_upsert_eq_append (fun g : RuntimeGroup => gangIdFor g.name tag)
      (mkGang tag) groups [] (by simp) hids
    simpa using this
  have hsvc : (FormGangs gm m tag groups).1.serviceToGang =
      groups.flatMap (fun g => g.services.map (fun s => (s, gangIdFor g.name tag))) := by
    show (groups.foldl (formStep tag)
      { gm with activeGangs := [], serviceToGang := [] }).serviceToGang = _
    rw [foldl_formStep_serviceToGang]
    have := serviceIdx_eq tag groups [] (by simp) hdisj hnd
    simpa using this
  have hkeys : (((groups.map
      (fun g => (gangIdFor g.name tag, mkGang tag g))).map Prod.fst)).Nodup := by
    rw [List.map_map]
    simpa using hids
  constructor
  · intro p hp q hq hne s hsp
    rw [hact] at hp hq
    rcases List.mem_map.mp hp with ⟨gp, hgp, rfl⟩
    rcases List.mem_map.mp hq with ⟨gq, hgq, rfl⟩
    have hgpq : gp ≠ gq := fun he => hne (by rw [he])
    have hsym : Symmetric
        (fun a b : RuntimeGroup => ∀ s, s ∈ a.services → s ∉ b.services) :=
      fun a b hab s hsb hsa => hab s hsa hsb
    exact List.Pairwise.forall hsym hdisj hgp hgq hgpq s hsp
  · intro svc gid hlk
    rw [hsvc] at hlk
    have hmem := lookupStr_mem _ _ _ hlk
    rcases List.mem_flatMap.mp hmem with ⟨g, hg, hmem2⟩
    rcases List.mem_map.mp hmem2 with ⟨s', hs', heq⟩
    have hsv : s' = svc := congrArg Prod.fst heq
    have hgid : gangIdFor g.name tag = gid := congrArg Prod.snd heq
    refine ⟨mkGang tag g, ?_, ?_⟩
    · rw [hact, ← hgid]
      exact lookupStr_of_nodup _ _ _ hkeys (List.mem_map.mpr ⟨g, hg, rfl⟩)
    · show svc ∈ g.services
      rw [← hsv]
      exact hs'

/-- Witness for C6 (amended) on the built-in default groups. -/
theorem claim6_service_in_one_gang_witness :
    (∀ p ∈ (FormGangs emptyGangManager NewNEXUSMetrics 0 experimentDefaults).1.activeGangs,
     ∀ q ∈ (FormGangs emptyGangManager NewNEXUSMetrics 0 experimentDefaults).1.activeGangs,
       p.1 ≠ q.1 → ∀ s, s ∈ p.2.members → s ∉ q.2.members) ∧
    (∀ svc gid,
      lookupStr (FormGangs emptyGangManager NewNEXUSMetrics 0
        experimentDefaults).1.serviceToGang svc = some gid →
      ∃ gang, lookupStr (FormGangs emptyGangManager NewNEXUSMetrics 0
        experimentDefaults).1.activeGangs gid = some gang ∧ svc ∈ gang.members) :=
  claim6_service_in_one_gang emptyGangManager NewNEXUSMetrics 0 experimentDefaults
    (by decide) (by decide) (by decide)

end Nexus
